import Mathlib

/-!
# Verification of the admission-control bot (`src/main.py`)

Shallow embedding of the Python source of the `countryblocker` repository.

* SQLite tables (`verified_users`, `join_requests`, `managed_groups`) are
  modelled as lists of rows; `INSERT OR REPLACE` removes any row with the
  same primary key and conses the new row, `UPDATE ... WHERE` is a `map`
  that rewrites the matching rows, and a `SELECT ... WHERE key = ?` is a
  `find?`.
* The external `phonenumbers` library is an abstract parameter
  (`PhoneLib`): the handlers are verified for every behaviour of the
  library.
* Telegram gateway calls (`approve_chat_join_request`, `send_message`,
  `ban_chat_member`, ...) can raise; each call site's success/failure is an
  explicit boolean oracle, and the handler's control flow (`try`/`except`)
  is translated into conditionals on those oracles.  Outbound calls are
  also recorded in an explicit trace so that absence of a call (e.g. the
  code never declines a join request) is expressible.
* Timestamps (`datetime.now()`) are explicit `Nat` parameters.
-/

set_option autoImplicit false

namespace CountryBlocker

universe u

/-! ## Data model: rows of the three SQLite tables -/

/-- A row of the `verified_users` table. -/
structure VerifiedUser where
  user_id : Int
  username : String
  first_name : String
  phone_number : String
  verified_date : Nat
  is_banned : Bool
deriving DecidableEq

/-- A row of the `join_requests` table.  The status is the raw string the
code stores (`'pending'`, `'approved'`, `'error'`, ...). -/
structure JoinRequest where
  user_id : Int
  chat_id : Int
  request_date : Nat
  status : String
deriving DecidableEq

/-- A row of the `managed_groups` table (`chat_id` is nullable). -/
structure Group where
  id : Int
  name : String
  description : String
  link : String
  chat_id : Option Int
deriving DecidableEq

/-! ## `DatabaseManager`: verified users -/

/-- `DatabaseManager.add_verified_user`:
`INSERT OR REPLACE INTO verified_users (user_id, username, first_name,
phone_number, verified_date, is_banned) VALUES (?, ?, ?, ?, ?, FALSE)`.
`REPLACE` deletes any row with the same primary key before inserting, and
the inserted row always carries `is_banned = FALSE`. -/
def add_verified_user (db : List VerifiedUser) (uid : Int)
    (username first_name phone_number : String) (now : Nat) : List VerifiedUser :=
  ⟨uid, username, first_name, phone_number, now, false⟩ ::
    db.filter (fun r => !(r.user_id == uid))

/-- `DatabaseManager.get_user_info`:
`SELECT * FROM verified_users WHERE user_id = ?`. -/
def get_user_info (db : List VerifiedUser) (uid : Int) : Option VerifiedUser :=
  db.find? (fun r => r.user_id == uid)

/-- `DatabaseManager.is_verified`:
`SELECT 1 FROM verified_users WHERE user_id = ? AND is_banned = FALSE`
is non-empty. -/
def is_verified (db : List VerifiedUser) (uid : Int) : Bool :=
  db.any (fun r => r.user_id == uid && !r.is_banned)

/-- `DatabaseManager.ban_user`:
`UPDATE verified_users SET is_banned = TRUE WHERE user_id = ?`. -/
def ban_user (db : List VerifiedUser) (uid : Int) : List VerifiedUser :=
  db.map (fun r =>
    if r.user_id == uid then
      ⟨r.user_id, r.username, r.first_name, r.phone_number, r.verified_date, true⟩
    else r)

/-! ## `DatabaseManager`: join requests -/

/-- `DatabaseManager.add_join_request`:
`INSERT OR REPLACE INTO join_requests (user_id, chat_id, request_date,
status) VALUES (?, ?, ?, 'pending')` with primary key `(user_id, chat_id)`. -/
def add_join_request (db : List JoinRequest) (uid cid : Int) (now : Nat) :
    List JoinRequest :=
  ⟨uid, cid, now, "pending"⟩ ::
    db.filter (fun r => !(r.user_id == uid && r.chat_id == cid))

/-- `DatabaseManager.update_join_request_status`:
`UPDATE join_requests SET status = ? WHERE user_id = ? AND chat_id = ?`. -/
def update_join_request_status (db : List JoinRequest) (uid cid : Int)
    (st : String) : List JoinRequest :=
  db.map (fun r =>
    if r.user_id == uid && r.chat_id == cid then
      ⟨r.user_id, r.chat_id, r.request_date, st⟩
    else r)

/-- `SELECT * FROM join_requests WHERE user_id = ? AND chat_id = ?`
(the ledger entry of one pair; used to state the claims). -/
def get_join_request (db : List JoinRequest) (uid cid : Int) : Option JoinRequest :=
  db.find? (fun r => r.user_id == uid && r.chat_id == cid)

/-- The query at the top of `approve_pending_requests`:
`SELECT chat_id FROM join_requests WHERE user_id = ? AND status = 'pending'`. -/
def pending_chats (db : List JoinRequest) (uid : Int) : List Int :=
  (db.filter (fun r => r.user_id == uid && r.status == "pending")).map
    (fun r => r.chat_id)

/-! ## `PhoneVerifier` -/

/-- Return value of `PhoneVerifier.verify_phone_number`. -/
structure VerifyResult where
  is_filipino : Bool
  formatted_number : String
deriving DecidableEq

/-- Abstract interface of the external `phonenumbers` library.  `parse`
models `phonenumbers.parse(s, 'PH')` (the `'PH'` region hint is baked in),
returning `none` when `NumberParseException` is raised; the other fields
model `is_valid_number`, `region_code_for_number` and
`format_number(_, INTERNATIONAL)` on the parsed object of type `α`. -/
structure PhoneLib (α : Type u) where
  parse : String → Option α
  is_valid_number : α → Bool
  region_code_for_number : α → String
  format_international : α → String

/-- `PhoneVerifier.verify_phone_number`: parse with region hint `'PH'`;
on success, filipino iff valid and the region code is `'PH'`, formatted
internationally; on `NumberParseException`, `is_filipino = False` and the
raw input is echoed back as `formatted_number`. -/
def verify_phone_number {α : Type u} (lib : PhoneLib α) (phone_number : String) :
    VerifyResult :=
  match lib.parse phone_number with
  | some parsed =>
      ⟨lib.is_valid_number parsed && (lib.region_code_for_number parsed == "PH"),
        lib.format_international parsed⟩
  | none => ⟨false, phone_number⟩

/-- Modelled from the spec (§4.1 contract for `verify`, claim C5's
reference formulation): accepted iff the input parses to a structurally
valid number whose issuing region code is a member of the allowed set;
fails closed (`false`) when parsing fails. -/
def spec_verify_accepted {α : Type u} (lib : PhoneLib α) (allowed : List String)
    (phone_number : String) : Bool :=
  match lib.parse phone_number with
  | some parsed =>
      lib.is_valid_number parsed &&
        allowed.contains (lib.region_code_for_number parsed)
  | none => false

/-- The only policy present in the code: the allowlist containing exactly
the Philippines (`verify_phone_number` hard-codes the region `'PH'`). -/
def ph_policy : List String := ["PH"]

/-! ## `FilipinoBotManager.approve_pending_requests`

The retroactive sweep.  The code snapshots the pending chat ids of the
user, then loops; per chat id it `try`s `approve_chat_join_request` — on
success the status is set to `'approved'` (the nested notification
`try/except` only logs and never touches the database), on exception the
status is set to `'error'` and the loop continues with the next chat id.
`approveOk` is the per-chat success oracle of the gateway call; the second
component of the result records every chat id for which an approval was
attempted, in order. -/
def approve_pending_requests (db : List JoinRequest) (uid : Int)
    (approveOk : Int → Bool) : List JoinRequest × List Int :=
  (pending_chats db uid).foldl
    (fun acc cid =>
      if approveOk cid then
        (update_join_request_status acc.1 uid cid "approved", acc.2 ++ [cid])
      else
        (update_join_request_status acc.1 uid cid "error", acc.2 ++ [cid]))
    (db, [])

/-! ## `FilipinoBotManager.handle_contact_message`

State-relevant slice: reject a contact not belonging to the sender; verify
the shared `contact.phone_number`; on `is_filipino`, call
`add_verified_user(user.id, user.username, user.first_name,
contact.phone_number)` — note: the *raw* contact string — and then run the
retroactive sweep.  The success / failure messages have no state effect. -/
def handle_contact_message {α : Type u} (lib : PhoneLib α)
    (vs : List VerifiedUser) (jr : List JoinRequest)
    (contact_user_id user_id : Int) (username first_name : String)
    (contact_phone : String) (now : Nat) (approveOk : Int → Bool) :
    List VerifiedUser × List JoinRequest :=
  if !(contact_user_id == user_id) then (vs, jr)
  else if (verify_phone_number lib contact_phone).is_filipino then
    (add_verified_user vs user_id username first_name contact_phone now,
      (approve_pending_requests jr user_id approveOk).1)
  else (vs, jr)

/-! ## `FilipinoBotManager.handle_join_request` -/

/-- An outbound Telegram gateway call made by a handler. -/
inductive GatewayCall where
  | approveJoin (chat_id user_id : Int)
  | declineJoin (chat_id user_id : Int)
  | sendMessage (target : Int)
deriving DecidableEq

/-- Success oracles for the gateway calls `handle_join_request` can make. -/
structure JoinOracles where
  /-- `approve_chat_join_request` succeeds. -/
  approveOk : Bool
  /-- the welcome direct message to the user succeeds (its failure is
  caught by a dedicated inner `try/except` that only logs). -/
  welcomeOk : Bool
  /-- the admin notification after approval succeeds — this call is *not*
  wrapped in its own `try`; its exception reaches the outer handler. -/
  adminNotifyOk : Bool
  /-- the guidance direct message in the unverified branch succeeds. -/
  guidanceOk : Bool
deriving DecidableEq

/-- `FilipinoBotManager.handle_join_request`.  The code first records the
request (`add_join_request` → `'pending'`).  If the user is verified, an
outer `try` approves the request and sets the status to `'approved'`,
sends the welcome DM inside an inner `try/except` (logged only), then
sends the admin notification; the outer `except` sets the status to
`'error'` — so it fires when the approval fails *or* when the admin
notification raises after a successful approval.  If the user is not
verified, the code only sends a guidance DM and an admin note (with a
fallback admin note when the DM fails, and a bare `except: pass` around
the fallback); it never declines and never updates the status.  Returns
the new `join_requests` table and the trace of attempted gateway calls. -/
def handle_join_request (vs : List VerifiedUser) (jr : List JoinRequest)
    (uid cid admin_id : Int) (now : Nat) (o : JoinOracles) :
    List JoinRequest × List GatewayCall :=
  let jr1 := add_join_request jr uid cid now
  if is_verified vs uid then
    if !o.approveOk then
      (update_join_request_status jr1 uid cid "error",
        [.approveJoin cid uid])
    else
      let jr2 := update_join_request_status jr1 uid cid "approved"
      if !o.adminNotifyOk then
        (update_join_request_status jr2 uid cid "error",
          [.approveJoin cid uid, .sendMessage uid, .sendMessage admin_id])
      else
        (jr2, [.approveJoin cid uid, .sendMessage uid, .sendMessage admin_id])
  else
    if o.guidanceOk then
      (jr1, [.sendMessage uid, .sendMessage admin_id])
    else
      -- guidance DM failed: the `except` block still attempts the admin
      -- notification (its own failure is swallowed by `except: pass`)
      (jr1, [.sendMessage uid, .sendMessage admin_id])

/-! ## `FilipinoBotManager.ban_command` -/

/-- An event of the ban command, in execution order. -/
inductive BanEvent where
  /-- `DatabaseManager.ban_user` committed on the store. -/
  | storeBan (user_id : Int)
  /-- `ban_chat_member(chat_id, user_id)` attempted, with its outcome. -/
  | gatewayBan (chat_id : Int) (ok : Bool)
deriving DecidableEq

/-- Python truthiness of the nullable `chat_id` column
(`if group['chat_id']:`): `None` and `0` are falsy. -/
def chat_id_truthy : Option Int → Bool
  | none => false
  | some c => !(c == 0)

/-- `FilipinoBotManager.ban_command` (authorisation and argument parsing
aside): call `ban_user` on the store first, then loop over the cached
groups and, for every group with a truthy `chat_id`, attempt
`ban_chat_member` inside a per-group `try/except` (a failure is logged and
the loop continues).  Returns the new store and the ordered event trace;
`banOk` is the gateway success oracle per chat id. -/
def ban_command (vs : List VerifiedUser) (groups : List Group) (uid : Int)
    (banOk : Int → Bool) : List VerifiedUser × List BanEvent :=
  (ban_user vs uid,
    BanEvent.storeBan uid ::
      (groups.filter (fun g => chat_id_truthy g.chat_id)).map
        (fun g => BanEvent.gatewayBan (g.chat_id.getD 0) (banOk (g.chat_id.getD 0))))

/-! ## `FilipinoBotManager.handle_my_chat_member_update`: reconciliation

String helpers, implemented structurally over the character lists so that
they mirror the Python string operations and evaluate by `decide`. -/

/-- Python `pat in s` (substring containment) on character lists. -/
def containsSub (pat : List Char) : List Char → Bool
  | [] => pat.isEmpty
  | c :: cs => pat.isPrefixOf (c :: cs) || containsSub pat cs

/-- The characters strictly before the first occurrence of `pat`
(`none` when `pat` does not occur). -/
def beforeFirst (pat : List Char) : List Char → Option (List Char)
  | [] => if pat.isEmpty then some [] else none
  | c :: cs =>
    if pat.isPrefixOf (c :: cs) then some []
    else (beforeFirst pat cs).map (fun l => c :: l)

/-- The characters strictly after the *last* occurrence of `pat`
(the whole list when `pat` does not occur): Python
`s.split(pat)[-1]`.  Computed via the first occurrence of the reversed
pattern in the reversed list. -/
def afterLastOcc (pat l : List Char) : List Char :=
  match beforeFirst pat.reverse l.reverse with
  | none => l
  | some pre => pre.reverse

/-- Python `s.split(c)[0]`: the characters before the first `c`. -/
def beforeChar (c : Char) : List Char → List Char
  | [] => []
  | x :: xs => if x == c then [] else x :: beforeChar c xs

/-- Python `s.lower()` on a character list. -/
def lowerChars (l : List Char) : List Char := l.map Char.toLower

/-- `group['link'].split('t.me/')[-1].split('?')[0]` — the stored public
handle extracted from a group's link. -/
def link_username_chars (link : String) : List Char :=
  beforeChar '?' (afterLastOcc "t.me/".data link.data)

/-- The per-group matching test of the loop in
`handle_my_chat_member_update`, an `if/elif/elif` chain evaluated for one
group at a time:
1. `invite_link and group['link'] == invite_link` (Python truthiness:
   `None` and `''` are falsy);
2. `elif 't.me/' in group['link'] and not group['link'].startswith('t.me/+')`:
   compare `chat.username` (truthy) with the stored handle,
   case-insensitively — when this `elif` guard holds but the usernames
   differ, the group does *not* match and the title criterion is skipped;
3. `elif not updated and group['name'].lower() == chat.title.lower()` —
   inside the loop `updated` is always `False` (the loop `break`s as soon
   as it sets `updated`), so only the title comparison remains. -/
def group_matches (invite_link chat_username : Option String)
    (chat_title : String) (g : Group) : Bool :=
  if !(invite_link.getD "" == "") && g.link == invite_link.getD "" then
    true
  else if containsSub "t.me/".data g.link.data &&
      !("t.me/+".data.isPrefixOf g.link.data) then
    !(chat_username.getD "" == "") &&
      lowerChars (chat_username.getD "").data ==
        lowerChars (link_username_chars g.link)
  else
    lowerChars g.name.data == lowerChars chat_title.data

/-- The matching loop of `handle_my_chat_member_update`: iterate over the
group snapshot in order and `break` on the first group that matches —
i.e. `find?` with the per-group test. -/
def reconcile_match (invite_link chat_username : Option String)
    (chat_title : String) (groups : List Group) : Option Group :=
  groups.find? (group_matches invite_link chat_username chat_title)

/-- `DatabaseManager.update_chat_id_by_link`:
`UPDATE managed_groups SET chat_id = ? WHERE link = ?`. -/
def update_chat_id_by_link (groups : List Group) (link : String) (cid : Int) :
    List Group :=
  groups.map (fun g => if g.link == link then ⟨g.id, g.name, g.description, g.link, some cid⟩ else g)

/-- The binding step of `handle_my_chat_member_update` when the bot is
added to a chat: run the matching loop over the stored groups and, on a
match, bind the live chat id through `update_chat_id_by_link` on the
matched group's link (followed in the code by a cache refresh, which has
no further table effect). -/
def handle_bot_added (groups : List Group) (invite_link chat_username : Option String)
    (chat_title : String) (cid : Int) : List Group :=
  match reconcile_match invite_link chat_username chat_title groups with
  | some g => update_chat_id_by_link groups g.link cid
  | none => groups

/-! ## Helper lemmas -/

/-- The record read back right after `add_verified_user` is the inserted
row: all prior state of the user, including a set ban flag, is replaced. -/
theorem get_user_info_add (db : List VerifiedUser) (uid : Int)
    (un fn ph : String) (t : Nat) :
    get_user_info (add_verified_user db uid un fn ph t) uid
      = some ⟨uid, un, fn, ph, t, false⟩ := by
  simp [get_user_info, add_verified_user, List.find?_cons]

/-- A user is verified-and-not-banned right after `add_verified_user`. -/
theorem is_verified_add (db : List VerifiedUser) (uid : Int)
    (un fn ph : String) (t : Nat) :
    is_verified (add_verified_user db uid un fn ph t) uid = true := by
  simp [is_verified, add_verified_user]

/-- `find?` over an `UPDATE ... WHERE`-style `map` (rewrite the rows the
predicate selects, keep the rest), when the rewrite preserves the
predicate: the result is the plain `find?`, rewritten. -/
theorem find?_update {α : Type} (p : α → Bool) (f : α → α)
    (hf : ∀ a, p (f a) = p a) (l : List α) :
    List.find? p (l.map (fun a => if p a then f a else a))
      = (List.find? p l).map f := by
  induction l with
  | nil => rfl
  | cons a l ih =>
    cases hp : p a with
    | true =>
      have h1 : p (if p a then f a else a) = true := by
        rw [if_pos hp, hf, hp]
      rw [List.map_cons, List.find?_cons_of_pos _ h1,
        List.find?_cons_of_pos _ hp, if_pos hp, Option.map_some']
    | false =>
      have h1 : ¬ p (if p a then f a else a) = true := by
        rw [if_neg (by rw [hp]; exact Bool.false_ne_true), hp]
        exact Bool.false_ne_true
      rw [List.map_cons, List.find?_cons_of_neg _ h1,
        List.find?_cons_of_neg _ (by rw [hp]; exact Bool.false_ne_true), ih]

/-- An `UPDATE ... WHERE`-style `map` is the identity when no row
satisfies the predicate. -/
theorem map_update_absent {α : Type} (p : α → Bool) (f : α → α)
    (l : List α) (h : ∀ a ∈ l, ¬ p a) :
    l.map (fun a => if p a then f a else a) = l := by
  induction l with
  | nil => rfl
  | cons a l ih =>
    rw [List.map_cons, if_neg (h a (List.mem_cons_self a l)),
      ih (fun x hx => h x (List.mem_cons_of_mem a hx))]

/-- Reading a user back after `ban_user` returns the prior record with the
ban flag set (or nothing, if the user had no record). -/
theorem get_user_info_ban (db : List VerifiedUser) (uid : Int) :
    get_user_info (ban_user db uid) uid
      = (get_user_info db uid).map
          (fun r => ⟨r.user_id, r.username, r.first_name, r.phone_number,
            r.verified_date, true⟩) := by
  exact find?_update (fun r => r.user_id == uid)
    (fun r => ⟨r.user_id, r.username, r.first_name, r.phone_number,
      r.verified_date, true⟩) (fun a => rfl) db

/-- `UPDATE ... WHERE user_id = ?` touches nothing when the user has no
row. -/
theorem ban_user_absent (db : List VerifiedUser) (uid : Int)
    (h : get_user_info db uid = none) : ban_user db uid = db := by
  unfold get_user_info at h
  exact map_update_absent (fun r => r.user_id == uid)
    (fun r => ⟨r.user_id, r.username, r.first_name, r.phone_number,
      r.verified_date, true⟩) db (List.find?_eq_none.mp h)

/-- The entry read back right after `add_join_request` is the fresh
pending row. -/
theorem get_join_request_add (db : List JoinRequest) (uid cid : Int) (t : Nat) :
    get_join_request (add_join_request db uid cid t) uid cid
      = some ⟨uid, cid, t, "pending"⟩ := by
  simp [get_join_request, add_join_request, List.find?_cons]

/-- Reading a pair back after `update_join_request_status` on that pair
rewrites the status of the prior entry. -/
theorem get_join_request_update (db : List JoinRequest) (uid cid : Int)
    (st : String) :
    get_join_request (update_join_request_status db uid cid st) uid cid
      = (get_join_request db uid cid).map
          (fun r => ⟨r.user_id, r.chat_id, r.request_date, st⟩) := by
  exact find?_update (fun r => r.user_id == uid && r.chat_id == cid)
    (fun r => ⟨r.user_id, r.chat_id, r.request_date, st⟩) (fun a => rfl) db

/-- After the upsert of `add_join_request` erased the prior row of the
pair, no row of that pair remains in the tail. -/
theorem filter_pair_erased (db : List JoinRequest) (uid cid : Int) :
    ((db.filter (fun r => !(r.user_id == uid && r.chat_id == cid))).filter
      (fun r => r.user_id == uid && r.chat_id == cid)) = [] := by
  induction db with
  | nil => rfl
  | cons r rest ih =>
    cases h : (r.user_id == uid && r.chat_id == cid) with
    | true =>
      rw [List.filter_cons_of_neg (by rw [h]; exact Bool.false_ne_true), ih]
    | false =>
      rw [List.filter_cons_of_pos (by rw [h]; rfl),
        List.filter_cons_of_neg (by rw [h]; exact Bool.false_ne_true), ih]

/-- `add_join_request` leaves exactly one row for its key. -/
theorem add_join_request_unique (db : List JoinRequest) (uid cid : Int)
    (t : Nat) :
    ((add_join_request db uid cid t).filter
      (fun r => r.user_id == uid && r.chat_id == cid)).length = 1 := by
  simp [add_join_request, List.filter_cons, filter_pair_erased db uid cid]

/-- A concrete instance of the abstract phone library: every string
parses, is valid, is issued by `PH`, and formats internationally as
`"+63 917"`; used to evaluate the handlers on concrete inputs. -/
def sample_lib : PhoneLib Unit :=
  ⟨fun _ => some (), fun _ => true, fun _ => "PH", fun _ => "+63 917"⟩

/-! ## Claims -/

/-- Claim C1, counterexample: a user with a `banned = true` record who
re-verifies does *not* keep the ban flag.  Before `add_verified_user`,
user `7` is banned; after a successful re-verification the stored record
has `is_banned = false` — `INSERT OR REPLACE ... VALUES (..., FALSE)`
overwrites the flag, contradicting the claim that the record "still has
banned = true". -/
theorem c1_counterexample :
    (get_user_info [⟨7, "a", "b", "+63", 0, true⟩] 7).map VerifiedUser.is_banned
        = some true
    ∧ (get_user_info
        (add_verified_user [⟨7, "a", "b", "+63", 0, true⟩] 7 "a" "b" "+63" 1) 7).map
          VerifiedUser.is_banned ≠ some true
    ∧ (get_user_info
        (add_verified_user [⟨7, "a", "b", "+63", 0, true⟩] 7 "a" "b" "+63" 1) 7).map
          VerifiedUser.is_banned = some false := by
  decide

/-- Claim C1, amended: a successful re-verification
(`add_verified_user`) overwrites phone number, name and timestamp *and
resets the banned flag to false* — for every store state and user, the
record after `recordVerification` is the freshly inserted row with
`is_banned = false`, regardless of any prior ban. -/
theorem c1_reverify_resets_ban (db : List VerifiedUser) (uid : Int)
    (un fn ph : String) (t : Nat) :
    get_user_info (add_verified_user db uid un fn ph t) uid
      = some ⟨uid, un, fn, ph, t, false⟩ :=
  get_user_info_add db uid un fn ph t

/-- Claim C2, counterexample: the snapshot holds `G2` (id 2, name
`"my group"`, link `https://t.me/Ab`) before `G1` (id 1, link
`https://t.me/+p`); the joined chat exports link `https://t.me/+p`
(equal to `G1`'s stored link), has public handle `ab` and title
`"My Group"` (matching `G2`'s name case-insensitively).  Reconciliation
binds the chat id to `G2`, not to the exact-link group `G1`: the three
criteria are evaluated per group in snapshot order, so the earlier group
`G2` wins through its handle match before `G1`'s exact-link match is ever
examined. -/
theorem c2_counterexample :
    reconcile_match (some "https://t.me/+p") (some "ab") "My Group"
        [⟨2, "my group", "", "https://t.me/Ab", none⟩,
          ⟨1, "Group One", "", "https://t.me/+p", none⟩]
      = some ⟨2, "my group", "", "https://t.me/Ab", none⟩
    ∧ reconcile_match (some "https://t.me/+p") (some "ab") "My Group"
        [⟨2, "my group", "", "https://t.me/Ab", none⟩,
          ⟨1, "Group One", "", "https://t.me/+p", none⟩]
      ≠ some ⟨1, "Group One", "", "https://t.me/+p", none⟩
    ∧ lowerChars "my group".data = lowerChars "My Group".data
    ∧ handle_bot_added
        [⟨2, "my group", "", "https://t.me/Ab", none⟩,
          ⟨1, "Group One", "", "https://t.me/+p", none⟩]
        (some "https://t.me/+p") (some "ab") "My Group" 999
      = [⟨2, "my group", "", "https://t.me/Ab", some 999⟩,
          ⟨1, "Group One", "", "https://t.me/+p", none⟩] := by
  decide

/-- Claim C2, amended: the matching criteria are evaluated per group, in
snapshot order, and the first group that matches any criterion wins; the
exact-link match therefore binds `G1` when `G1` is reached before any
other matching group — in particular, whenever the exact-link group heads
the snapshot, it is bound regardless of any later group whose name
matches the chat title. -/
theorem c2_first_group_wins (l : String) (u : Option String) (t : String)
    (g : Group) (rest : List Group) (hne : l ≠ "") (hlink : g.link = l) :
    reconcile_match (some l) u t (g :: rest) = some g := by
  have hb : (l == "") = false := by
    cases hc : (l == "") with
    | true => exact absurd (by exact eq_of_beq hc) hne
    | false => rfl
  have hmatch : group_matches (some l) u t g = true := by
    unfold group_matches
    rw [show (some l).getD "" = l from rfl, hlink]
    simp [hb]
  exact List.find?_cons_of_pos _ hmatch

/-- Witness for `c2_first_group_wins` at a concrete snapshot whose head
has the exact link and whose tail contains a title-matching group. -/
theorem c2_first_group_wins_witness :
    reconcile_match (some "https://t.me/x") none "T"
        [⟨1, "n", "", "https://t.me/x", none⟩, ⟨2, "t", "", "z", none⟩]
      = some ⟨1, "n", "", "https://t.me/x", none⟩ :=
  c2_first_group_wins "https://t.me/x" none "T"
    ⟨1, "n", "", "https://t.me/x", none⟩ [⟨2, "t", "", "z", none⟩]
    (by decide) rfl

/-- Claim C3: the welcome direct message is best-effort (its failure
leaves the ledger `approved`), but the *admin notification* is not — it
sits inside the outer `try` of `handle_join_request`, so when it raises
after a successful approval the outer `except` overwrites the ledger
status with `'error'`.  Evaluated on a verified, non-banned user `1`
requesting chat `100` with a succeeding Gateway approve: a failing admin
notification ends the ledger at `error` (divergence from the claim),
while a failing welcome message alone leaves it `approved`. -/
theorem c3_admin_notify_overwrites_approved :
    get_join_request
        (handle_join_request [⟨1, "u", "f", "+63", 0, false⟩] [] 1 100 999 5
          ⟨true, true, false, true⟩).1 1 100
      = some ⟨1, 100, 5, "error"⟩
    ∧ get_join_request
        (handle_join_request [⟨1, "u", "f", "+63", 0, false⟩] [] 1 100 999 5
          ⟨true, false, true, true⟩).1 1 100
      = some ⟨1, 100, 5, "approved"⟩ := by
  decide

/-- Claim C4: the retroactive sweep processes each pending entry
independently and to completion.  For a user with pending entries for
chats `A` and `B` where the Gateway approve fails for `A` and succeeds
for `B`, the sweep attempts both (the attempt trace is `[A, B]`) and the
ledger ends with `(user, A) = error` and `(user, B) = approved`. -/
theorem c4_sweep_independent (uid A B : Int) (ta tb : Nat) (ok : Int → Bool)
    (hAB : A ≠ B) (hA : ok A = false) (hB : ok B = true) :
    approve_pending_requests
        [⟨uid, A, ta, "pending"⟩, ⟨uid, B, tb, "pending"⟩] uid ok
      = ([⟨uid, A, ta, "error"⟩, ⟨uid, B, tb, "approved"⟩], [A, B]) := by
  have hBA : (B == A) = false := by
    cases hc : (B == A) with
    | true => exact absurd (by exact (eq_of_beq hc).symm) hAB
    | false => rfl
  have hAB2 : (A == B) = false := by
    cases hc : (A == B) with
    | true => exact absurd (by exact eq_of_beq hc) hAB
    | false => rfl
  simp [approve_pending_requests, pending_chats, update_join_request_status,
    List.filter_cons, List.foldl, hA, hB, hBA, hAB2, hAB, Ne.symm hAB]

/-- Witness for `c4_sweep_independent`: user 1, chats 10 and 20, gateway
succeeding exactly on chat 20. -/
theorem c4_sweep_independent_witness :
    approve_pending_requests
        [⟨1, 10, 0, "pending"⟩, ⟨1, 20, 3, "pending"⟩] 1 (fun c => c == 20)
      = ([⟨1, 10, 0, "error"⟩, ⟨1, 20, 3, "approved"⟩], [10, 20]) :=
  c4_sweep_independent 1 10 20 0 3 (fun c => c == 20)
    (by decide) (by decide) (by decide)

/-- Claim C5: for every behaviour of the external phone library and every
input string, `verify_phone_number` accepts exactly when the input parses
to a structurally valid number whose issuing region code is in the policy
in force — which in this code is the fixed allowlist `["PH"]` — and in
particular fails closed when parsing raises.  `spec_verify_accepted` is
the spec's wording of the contract; the equation also exhibits the
function as a pure, deterministic function of its inputs. -/
theorem c5_verify_accepted_policy {α : Type u} (lib : PhoneLib α) (p : String) :
    (verify_phone_number lib p).is_filipino
      = spec_verify_accepted lib ph_policy p := by
  cases h : lib.parse p with
  | none => simp [verify_phone_number, spec_verify_accepted, h]
  | some n =>
    simp only [verify_phone_number, spec_verify_accepted, ph_policy, h]
    cases hr : (lib.region_code_for_number n == "PH") with
    | true => simp [List.contains, List.elem, hr]
    | false => simp [List.contains, List.elem, hr]

/-- Claim C6, counterexample: on a successful verification the persisted
phone number is the *raw* contact string, not the formatted
representation returned by `verify`.  With a library that accepts
`"0917"` and formats it as `"+63 917"`, the stored record holds
`"0917"` — `handle_contact_message` passes `contact.phone_number` to
`add_verified_user`, using `formatted_number` only in messages. -/
theorem c6_counterexample :
    (verify_phone_number sample_lib "0917").is_filipino = true
    ∧ (verify_phone_number sample_lib "0917").formatted_number = "+63 917"
    ∧ (get_user_info
        (handle_contact_message sample_lib [] [] 1 1 "u" "f" "0917" 0
          (fun _ => true)).1 1).map VerifiedUser.phone_number = some "0917"
    ∧ (get_user_info
        (handle_contact_message sample_lib [] [] 1 1 "u" "f" "0917" 0
          (fun _ => true)).1 1).map VerifiedUser.phone_number ≠ some "+63 917" := by
  decide

/-- Claim C6, amended: for every successful verification, the phone
number persisted in the `VerifiedUser` record is the raw input string the
user supplied (`contact.phone_number`); the formatted representation from
`verify` is used only for display. -/
theorem c6_stores_raw_phone {α : Type u} (lib : PhoneLib α)
    (vs : List VerifiedUser) (jr : List JoinRequest) (uid : Int)
    (un fn raw : String) (now : Nat) (ok : Int → Bool)
    (h : (verify_phone_number lib raw).is_filipino = true) :
    (get_user_info
        (handle_contact_message lib vs jr uid uid un fn raw now ok).1 uid).map
      VerifiedUser.phone_number = some raw := by
  simp [handle_contact_message, h, get_user_info_add]

/-- Witness for `c6_stores_raw_phone` on the concrete sample library. -/
theorem c6_stores_raw_phone_witness :
    (get_user_info
        (handle_contact_message sample_lib [⟨9, "x", "y", "z", 0, false⟩] []
          1 1 "u" "f" "0917" 0 (fun _ => true)).1 1).map
      VerifiedUser.phone_number = some "0917" :=
  c6_stores_raw_phone sample_lib [⟨9, "x", "y", "z", 0, false⟩] [] 1
    "u" "f" "0917" 0 (fun _ => true) (by decide)

/-- Claim C7: a join request from a user who is not verified-and-not-banned
leaves the ledger entry `pending`, and the handler never issues a
`declineJoinRequest` gateway call; this holds for every outcome of the
best-effort guidance and notification messages, so a delivery failure
does not alter the ledger state. -/
theorem c7_unverified_pending_no_decline (vs : List VerifiedUser)
    (jr : List JoinRequest) (uid cid admin_id : Int) (now : Nat)
    (o : JoinOracles) (h : is_verified vs uid = false) :
    get_join_request (handle_join_request vs jr uid cid admin_id now o).1 uid cid
        = some ⟨uid, cid, now, "pending"⟩
    ∧ ∀ c u : Int,
        GatewayCall.declineJoin c u ∉
          (handle_join_request vs jr uid cid admin_id now o).2 := by
  have hres : handle_join_request vs jr uid cid admin_id now o
      = (add_join_request jr uid cid now,
          [.sendMessage uid, .sendMessage admin_id]) := by
    unfold handle_join_request
    rw [h]
    simp
  rw [hres]
  refine ⟨get_join_request_add jr uid cid now, ?_⟩
  intro c u hc
  simp at hc

/-- Witness for `c7_unverified_pending_no_decline`: user 1 (absent from
the store) requesting chat 2, with a failing guidance message. -/
theorem c7_unverified_pending_no_decline_witness :
    get_join_request
        (handle_join_request [⟨9, "x", "y", "z", 0, false⟩] [⟨1, 2, 0, "error"⟩]
          1 2 999 7 ⟨true, true, true, false⟩).1 1 2
      = some ⟨1, 2, 7, "pending"⟩
    ∧ ∀ c u : Int,
        GatewayCall.declineJoin c u ∉
          (handle_join_request [⟨9, "x", "y", "z", 0, false⟩] [⟨1, 2, 0, "error"⟩]
            1 2 999 7 ⟨true, true, true, false⟩).2 :=
  c7_unverified_pending_no_decline [⟨9, "x", "y", "z", 0, false⟩]
    [⟨1, 2, 0, "error"⟩] 1 2 999 7 ⟨true, true, true, false⟩ (by decide)

/-- Claim C8: `add_join_request` is an idempotent upsert keyed by
`(user id, chat id)`: starting from any store whose entry for the pair is
any prior record (terminal status included) with an older timestamp, the
re-open resets the entry to `pending` carrying the strictly fresher
timestamp, and exactly one record for the pair exists afterwards. -/
theorem c8_reopen_resets_pending (jr : List JoinRequest) (uid cid : Int)
    (t : Nat) (r₀ : JoinRequest)
    (hprev : get_join_request jr uid cid = some r₀)
    (ht : r₀.request_date < t) :
    get_join_request (add_join_request jr uid cid t) uid cid
        = some ⟨uid, cid, t, "pending"⟩
    ∧ r₀.request_date < t
    ∧ ((add_join_request jr uid cid t).filter
        (fun r => r.user_id == uid && r.chat_id == cid)).length = 1 :=
  ⟨get_join_request_add jr uid cid t, ht, add_join_request_unique jr uid cid t⟩

/-- Witness for `c8_reopen_resets_pending`: a pair previously in the
terminal status `'error'` re-opened at a later time. -/
theorem c8_reopen_resets_pending_witness :
    get_join_request (add_join_request [⟨1, 2, 0, "error"⟩] 1 2 5) 1 2
        = some ⟨1, 2, 5, "pending"⟩
    ∧ (JoinRequest.request_date ⟨1, 2, 0, "error"⟩) < 5
    ∧ ((add_join_request [⟨1, 2, 0, "error"⟩] 1 2 5).filter
        (fun r => r.user_id == 1 && r.chat_id == 2)).length = 1 :=
  c8_reopen_resets_pending [⟨1, 2, 0, "error"⟩] 1 2 5 ⟨1, 2, 0, "error"⟩
    (by decide) (by decide)

/-- Claim C9: for a user present in the store, the ban command commits
the store ban before any per-group gateway attempt (the first event of
the trace is `storeBan`), the resulting record has `is_banned = true`
for *every* gateway outcome function, and every cached group with a
truthy live chat id gets a `ban_chat_member` attempt — a failure for one
group never removes another group's attempt from the trace. -/
theorem c9_ban_unconditional_all_groups (vs : List VerifiedUser)
    (groups : List Group) (uid : Int) (banOk : Int → Bool)
    (h : ∃ r ∈ vs, r.user_id = uid) :
    (∃ r, get_user_info (ban_command vs groups uid banOk).1 uid = some r
      ∧ r.is_banned = true)
    ∧ (ban_command vs groups uid banOk).2.head? = some (BanEvent.storeBan uid)
    ∧ ∀ g ∈ groups, chat_id_truthy g.chat_id = true →
        BanEvent.gatewayBan (g.chat_id.getD 0) (banOk (g.chat_id.getD 0))
          ∈ (ban_command vs groups uid banOk).2 := by
  refine ⟨?_, rfl, ?_⟩
  · obtain ⟨r, hr, hid⟩ := h
    have hsome : (get_user_info vs uid).isSome := by
      rw [get_user_info, List.find?_isSome]
      exact ⟨r, hr, by simp [hid]⟩
    obtain ⟨r₀, hr₀⟩ := Option.isSome_iff_exists.mp hsome
    refine ⟨⟨r₀.user_id, r₀.username, r₀.first_name, r₀.phone_number,
      r₀.verified_date, true⟩, ?_, rfl⟩
    show get_user_info (ban_user vs uid) uid = _
    rw [get_user_info_ban, hr₀, Option.map_some']
  · intro g hg htr
    refine List.mem_cons_of_mem _ (List.mem_map.mpr ?_)
    exact ⟨g, List.mem_filter.mpr ⟨hg, htr⟩, rfl⟩

/-- Witness for `c9_ban_unconditional_all_groups`: a verified user and
two groups with live chat ids 10 and 20, the gateway succeeding only on
chat 20. -/
theorem c9_ban_unconditional_all_groups_witness :
    (∃ r, get_user_info
        (ban_command [⟨1, "u", "f", "p", 0, false⟩]
          [⟨1, "g1", "", "l1", some 10⟩, ⟨2, "g2", "", "l2", some 20⟩]
          1 (fun c => c == 20)).1 1 = some r ∧ r.is_banned = true)
    ∧ (ban_command [⟨1, "u", "f", "p", 0, false⟩]
        [⟨1, "g1", "", "l1", some 10⟩, ⟨2, "g2", "", "l2", some 20⟩]
        1 (fun c => c == 20)).2.head? = some (BanEvent.storeBan 1)
    ∧ ∀ g ∈ [(⟨1, "g1", "", "l1", some 10⟩ : Group),
          ⟨2, "g2", "", "l2", some 20⟩],
        chat_id_truthy g.chat_id = true →
          BanEvent.gatewayBan (g.chat_id.getD 0) ((fun c => c == 20) (g.chat_id.getD 0))
            ∈ (ban_command [⟨1, "u", "f", "p", 0, false⟩]
                [⟨1, "g1", "", "l1", some 10⟩, ⟨2, "g2", "", "l2", some 20⟩]
                1 (fun c => c == 20)).2 :=
  c9_ban_unconditional_all_groups [⟨1, "u", "f", "p", 0, false⟩]
    [⟨1, "g1", "", "l1", some 10⟩, ⟨2, "g2", "", "l2", some 20⟩]
    1 (fun c => c == 20) (by decide)

/-- Claim C10: banning a user with no `VerifiedUser` record is a no-op on
the store — the table is unchanged and the lookup stays absent — and such
a user can still verify afterwards, ending verified-and-not-banned: the
earlier ban of an unverified user leaves no persistent trace. -/
theorem c10_ban_absent_noop (vs : List VerifiedUser) (uid : Int)
    (un fn ph : String) (t : Nat) (h : get_user_info vs uid = none) :
    ban_user vs uid = vs
    ∧ get_user_info (ban_user vs uid) uid = none
    ∧ is_verified (add_verified_user (ban_user vs uid) uid un fn ph t) uid = true := by
  have h1 := ban_user_absent vs uid h
  exact ⟨h1, by rw [h1]; exact h,
    by rw [h1]; exact is_verified_add vs uid un fn ph t⟩

/-- Witness for `c10_ban_absent_noop`: user 1 is absent (only user 2 has
a record), is banned, then verifies. -/
theorem c10_ban_absent_noop_witness :
    ban_user [⟨2, "x", "y", "z", 0, true⟩] 1 = [⟨2, "x", "y", "z", 0, true⟩]
    ∧ get_user_info (ban_user [⟨2, "x", "y", "z", 0, true⟩] 1) 1 = none
    ∧ is_verified
        (add_verified_user (ban_user [⟨2, "x", "y", "z", 0, true⟩] 1)
          1 "u" "f" "0917" 4) 1 = true :=
  c10_ban_absent_noop [⟨2, "x", "y", "z", 0, true⟩] 1 "u" "f" "0917" 4
    (by decide)

end CountryBlocker
